import Mathlib

/-!
Shallow embedding of the authorization-and-ownership core of a multi-tenant
resource API (FastAPI backend: `app/common/auth.py`, `app/common/base_service.py`,
`app/domains/users/*`, `app/domains/items/*`, `app/core/exceptions.py`), together
with proofs of the specified properties.

UUIDs are modelled as natural numbers; database sessions are modelled as the
list of rows of the one table a service touches; raising `HTTPException` is
modelled with `Except`.
-/

set_option autoImplicit false

/-- UUIDs are opaque identifiers; modelled as naturals. -/
abbrev UUID := Nat

/-! ## Credential hasher (`app/core/security.py`, absent from the sources)

Modelled from the spec: `app/core/security.py` is not among the provided
source files; the spec describes the Credential Hasher as an external
collaborator with `hash(plaintext) -> opaque` and
`verify(plaintext, opaque) -> bool`, one-way, with verification succeeding
exactly against the stored hash of the same plaintext. We model it as an
injective tagging function whose output never equals its input. -/

/-- Modelled from the spec: the Credential Hasher `hash(plaintext) -> opaque`
(`get_password_hash` in `app.core.security`, absent from src). -/
def get_password_hash (plaintext : String) : String :=
  "$model$" ++ plaintext

/-- Modelled from the spec: the Credential Hasher `verify(plaintext, opaque)`
(`verify_password` in `app.core.security`, absent from src): verification
succeeds exactly when the opaque value is the hash of the plaintext. -/
def verify_password (plaintext hashed : String) : Bool :=
  get_password_hash plaintext == hashed

/-! ## Error model (`app/core/exceptions.py`, `fastapi.HTTPException`) -/

/-- `fastapi.HTTPException`: carries an HTTP status code and a detail message. -/
structure HTTPException where
  status_code : Nat
  detail : String
deriving DecidableEq, Repr

/-- `status.HTTP_400_BAD_REQUEST`. -/
def HTTP_400_BAD_REQUEST : Nat := 400

/-- `status.HTTP_403_FORBIDDEN`. -/
def HTTP_403_FORBIDDEN : Nat := 403

/-- `app.core.exceptions.ForbiddenError.status_code` (the Forbidden error class). -/
def ForbiddenError.status_code : Nat := 403

/-- `app.core.exceptions.BadRequestError.status_code` (the BadRequest error class). -/
def BadRequestError.status_code : Nat := 400

/-! ## Ownership policy (`app/common/auth.py`)

The Python guards take any object satisfying the `HasSuperuser` protocol
(fields `is_superuser`, `id`); we model that protocol as a structure and the
guards as total functions returning `Except HTTPException Unit`
(`.error` = the guard raised). Python default arguments are made explicit:
`require_owner_or_superuser` defaults to
`detail="Not enough permissions"`, `status_code=status.HTTP_400_BAD_REQUEST`. -/

/-- The `HasSuperuser` protocol of `app.common.auth`: an actor with an
`is_superuser` flag and an `id`. -/
structure HasSuperuser where
  is_superuser : Bool
  id : UUID
deriving DecidableEq, Repr

/-- `app.common.auth.require_owner_or_superuser`, with the default
arguments of the source passed explicitly by the caller. -/
def require_owner_or_superuser (resource_owner_id : UUID)
    (current_user : HasSuperuser) (detail : String) (status_code : Nat) :
    Except HTTPException Unit :=
  if !current_user.is_superuser && resource_owner_id != current_user.id then
    Except.error ⟨status_code, detail⟩
  else
    Except.ok ()

/-- `require_owner_or_superuser` called with no caller override, i.e. with the
default arguments of the source, `detail="Not enough permissions"` and
`status_code=status.HTTP_400_BAD_REQUEST`. -/
def require_owner_or_superuser_defaults (resource_owner_id : UUID)
    (current_user : HasSuperuser) : Except HTTPException Unit :=
  require_owner_or_superuser resource_owner_id current_user
    "Not enough permissions" HTTP_400_BAD_REQUEST

/-- `app.common.auth.require_superuser` (default detail made explicit). -/
def require_superuser (current_user : HasSuperuser) (detail : String) :
    Except HTTPException Unit :=
  if !current_user.is_superuser then
    Except.error ⟨HTTP_403_FORBIDDEN, detail⟩
  else
    Except.ok ()

/-- `app.common.auth.require_active` (default detail made explicit). -/
def require_active (is_active : Bool) (detail : String) :
    Except HTTPException Unit :=
  if !is_active then
    Except.error ⟨HTTP_400_BAD_REQUEST, detail⟩
  else
    Except.ok ()

/-! ## Users domain (`app/domains/users/models.py`, `schemas.py`, `service.py`) -/

/-- The `User` table model: `id`, `email`, `is_active`, `is_superuser`,
`full_name` (nullable), `hashed_password`. -/
structure User where
  id : UUID
  email : String
  is_active : Bool
  is_superuser : Bool
  full_name : Option String
  hashed_password : String
deriving DecidableEq, Repr

/-- `get_model_fields(User)`: the declared fields of the `User` table model.
Note there is no field named "password". -/
def User.fieldNames : List String :=
  ["email", "is_active", "is_superuser", "full_name", "id", "hashed_password"]

/-- `UserCreate` (inherits `UserBase`): `email`, `is_active`, `is_superuser`,
`full_name`, plus the plaintext `password`. -/
structure UserCreate where
  email : String
  is_active : Bool
  is_superuser : Bool
  full_name : Option String
  password : String
deriving DecidableEq, Repr

/-- `UserUpdate`: pydantic tracks which fields were explicitly set at
construction; `none` here models an unset field (excluded by
`model_dump(exclude_unset=True)`), `some` an explicitly set one. `full_name`
is nullable in the record, so an explicit null is `some none`. -/
structure UserUpdate where
  email : Option String
  is_active : Option Bool
  is_superuser : Option Bool
  full_name : Option (Option String)
  password : Option String
deriving DecidableEq, Repr

/-- The rows of the `user` table visible through a session. -/
abbrev UserTable := List User

/-- `UserService.get_user_by_email`:
`select(User).where(User.email == email)` then `.first()`. -/
def UserService.get_user_by_email (session : UserTable) (email : String) :
    Option User :=
  session.find? (fun u => u.email == email)

/-- `UserService.authenticate`: look up by email; `None` if no user; `None`
if `verify_password` fails against the stored hash; else the user. -/
def UserService.authenticate (session : UserTable) (email password : String) :
    Option User :=
  match UserService.get_user_by_email session email with
  | none => none
  | some db_user =>
    if !verify_password password db_user.hashed_password then none
    else some db_user

/-- The free function `app.domains.auth.service.authenticate`: look up via
`get_user_by_email`; `None` if no user; `None` if `verify_password` fails;
else the user. -/
def AuthService.authenticate (session : UserTable) (email password : String) :
    Option User :=
  let db_user := UserService.get_user_by_email session email
  match db_user with
  | none => none
  | some u =>
    if !verify_password password u.hashed_password then none
    else some u

/-- `UserService.create_user` composed with `BaseService.create` at `User`:
`User.model_validate(user_create, update={hashed_password: hash(password)})`
copies each `UserCreate` field that is a declared `User` field (the plaintext
`password` is not one and is dropped by validation), lets the store assign
the fresh id, and merges the extra field `hashed_password`. -/
def UserService.create_user (user_create : UserCreate) (fresh_id : UUID) : User :=
  { id := fresh_id
    email := user_create.email
    is_active := user_create.is_active
    is_superuser := user_create.is_superuser
    full_name := user_create.full_name
    hashed_password := get_password_hash user_create.password }

/-- `UserService.update_user`:
`user_data = user_in.model_dump(exclude_unset=True)`; if "password" is among
the set fields, `extra_data["hashed_password"] = hash(password)`; then
`db_user.sqlmodel_update(user_data, update=extra_data)`. `sqlmodel_update`
applies only keys among `get_model_fields(User)`, so the plaintext "password"
entry of `user_data` is dropped, and `extra_data` is applied afterwards. -/
def UserService.update_user (db_user : User) (user_in : UserUpdate) : User :=
  let afterFields : User :=
    { id := db_user.id
      email := user_in.email.getD db_user.email
      is_active := user_in.is_active.getD db_user.is_active
      is_superuser := user_in.is_superuser.getD db_user.is_superuser
      full_name := user_in.full_name.getD db_user.full_name
      hashed_password := db_user.hashed_password }
  match user_in.password with
  | none => afterFields
  | some password =>
    { afterFields with hashed_password := get_password_hash password }

/-! ## Items domain (`app/domains/items/models.py`, `schemas.py`, `service.py`,
`routes.py`) -/

/-- The `Item` table model: `id`, `title`, `description` (nullable),
`owner_id`. -/
structure Item where
  id : UUID
  title : String
  description : Option String
  owner_id : UUID
deriving DecidableEq, Repr

/-- `ItemCreate`: only `title` and `description` — it declares no `owner_id`
and no privileged field. -/
structure ItemCreate where
  title : String
  description : Option String
deriving DecidableEq, Repr

/-- The rows of the `item` table visible through a session. -/
abbrev ItemTable := List Item

/-- `BaseService.get_multi` at `Item`:
`select(Item).offset(skip).limit(limit)`. -/
def ItemService.get_multi (session : ItemTable) (skip limit : Nat) : List Item :=
  (session.drop skip).take limit

/-- `BaseService.count` at `Item`: `select(func.count()).select_from(Item)`. -/
def ItemService.count (session : ItemTable) : Nat :=
  session.length

/-- `ItemService.get_by_owner`:
`select(Item).where(Item.owner_id == owner_id).offset(skip).limit(limit)`. -/
def ItemService.get_by_owner (session : ItemTable) (owner_id : UUID)
    (skip limit : Nat) : List Item :=
  (((session.filter (fun i => i.owner_id == owner_id)).drop skip).take limit)

/-- `ItemService.count_by_owner`:
`select(func.count()).select_from(Item).where(Item.owner_id == owner_id)`. -/
def ItemService.count_by_owner (session : ItemTable) (owner_id : UUID) : Nat :=
  (session.filter (fun i => i.owner_id == owner_id)).length

/-- `ItemService.create_with_owner` composed with `BaseService.create` at
`Item`: `Item.model_validate(item_in, update={owner_id: owner_id})` copies the
`ItemCreate` fields, lets the store assign the fresh id, and merges the extra
field `owner_id`. -/
def ItemService.create_with_owner (item_in : ItemCreate) (fresh_id : UUID)
    (owner_id : UUID) : Item :=
  ⟨fresh_id, item_in.title, item_in.description, owner_id⟩

/-- Response schema `ItemsPublic` (`data`, `count`), carrying the rows. -/
structure ItemsPublic where
  data : List Item
  count : Nat
deriving DecidableEq, Repr

/-- The handler `read_items` of `app/domains/items/routes.py`: superusers get
the global count and the paginated global list; others get their own count
and their own paginated items. No guard is invoked. -/
def read_items (session : ItemTable) (current_user : User) (skip limit : Nat) :
    ItemsPublic :=
  if current_user.is_superuser then
    ⟨ItemService.get_multi session skip limit, ItemService.count session⟩
  else
    ⟨ItemService.get_by_owner session current_user.id skip limit,
     ItemService.count_by_owner session current_user.id⟩

/-! ## Generic entity store (`app/common/base_service.py`)

`BaseService` is generic in the model type. For the update contract we embed
a model instance as its list of declared fields (`get_model_fields`) together
with a valuation of field names, and an update-schema instance as the list of
its explicitly-set fields (what `model_dump(exclude_unset=True)` returns,
an explicit null appearing as `Value.vnull`). For get/delete we stay generic
in a row type with a primary-key projection. -/

/-- A field value of a model: null, string, boolean or numeric. -/
inductive Value where
  | vnull
  | vstr (s : String)
  | vbool (b : Bool)
  | vnat (n : Nat)
deriving DecidableEq, Repr

/-- A SQLModel instance: its declared model fields and their current values. -/
structure Model where
  fields : List String
  val : String → Value

/-- `setattr(self, key, value)`. -/
def Model.setattr (m : Model) (key : String) (v : Value) : Model :=
  ⟨m.fields, fun f => if f = key then v else m.val f⟩

/-- Iterate over entries, setting each key that is a declared model field
(`if key in get_model_fields(self): setattr(self, key, value)`). -/
def Model.applyEntries (m : Model) : List (String × Value) → Model
  | [] => m
  | kv :: rest =>
    (if kv.1 ∈ m.fields then m.setattr kv.1 kv.2 else m).applyEntries rest

/-- `db_obj.sqlmodel_update(update_data, update=extra)`: iterates the merged
dict `{**update_data, **extra}` setting declared fields; for a key present in
both, the merged dict holds the extra value, so the result equals applying
`update_data` first and `extra` after it. -/
def Model.sqlmodel_update (m : Model) (update_data extra : List (String × Value)) :
    Model :=
  (m.applyEntries update_data).applyEntries extra

/-- An update-schema instance, as the association list of the fields that were
explicitly set at construction (pydantic tracks set-ness per construction). -/
structure UpdateSchema where
  setEntries : List (String × Value)
deriving DecidableEq, Repr

/-- `obj_in.model_dump(exclude_unset=True)`: exactly the explicitly-set
fields. -/
def UpdateSchema.model_dump_exclude_unset (u : UpdateSchema) :
    List (String × Value) :=
  u.setEntries

/-- `BaseService.update`:
`update_data = obj_in.model_dump(exclude_unset=True)` then
`db_obj.sqlmodel_update(update_data, update=extra_fields)`. -/
def BaseService.update (db_obj : Model) (obj_in : UpdateSchema)
    (extra_fields : List (String × Value)) : Model :=
  db_obj.sqlmodel_update obj_in.model_dump_exclude_unset extra_fields

/-- `BaseService.get`: `session.get(model, id)` — the row whose primary key
is `id` (generic in the row type, `idOf` being the primary-key projection). -/
def BaseService.get {α : Type} (table : List α) (idOf : α → UUID) (id : UUID) :
    Option α :=
  table.find? (fun x => idOf x == id)

/-- `BaseService.delete` applied to the row fetched by primary key:
`session.delete(obj)` removes that row (the first, and under the primary-key
invariant the only, row with this id). -/
def BaseService.delete {α : Type} (table : List α) (idOf : α → UUID)
    (id : UUID) : List α :=
  table.eraseP (fun x => idOf x == id)

/-- `BaseService.delete_by_id`: `obj = self.get(session, id)`;
if found, delete it and return True, else return False. Returns the flag with
the table after the call. -/
def BaseService.delete_by_id {α : Type} (table : List α) (idOf : α → UUID)
    (id : UUID) : Bool × List α :=
  match BaseService.get table idOf id with
  | some _ => (true, BaseService.delete table idOf id)
  | none => (false, table)

/-! ## Helper lemmas -/

theorem get_password_hash_inj (a b : String)
    (h : get_password_hash a = get_password_hash b) : a = b := by
  have hd : ("$model$" ++ a).data = ("$model$" ++ b).data := congrArg String.data h
  simp only [String.data_append] at hd
  exact String.ext (List.append_cancel_left hd)

theorem get_password_hash_ne_plaintext (p : String) : get_password_hash p ≠ p := by
  intro h
  have hlen : (get_password_hash p).length = p.length := congrArg String.length h
  rw [get_password_hash, String.length_append] at hlen
  have h7 : ("$model$" : String).length = 7 := by decide
  omega

theorem verify_password_hash_self (p : String) :
    verify_password p (get_password_hash p) = true := by
  simp [verify_password]

theorem verify_password_eq_true_iff (p h : String) :
    verify_password p h = true ↔ get_password_hash p = h := by
  simp [verify_password]

/-! ## C1, C2: ownership policy -/

/-- C1: for every resource_owner_id and every actor,
`require_owner_or_superuser(resource_owner_id, actor)` succeeds (returns
without raising) iff `actor.is_superuser` is true or `actor.id` equals
`resource_owner_id`; in all other cases it fails. This holds for every
detail/status_code the caller passes, the defaults included. -/
theorem require_owner_or_superuser_ok_iff (resource_owner_id : UUID)
    (actor : HasSuperuser) (detail : String) (status_code : Nat) :
    (require_owner_or_superuser resource_owner_id actor detail status_code
        = Except.ok ()
      ↔ actor.is_superuser = true ∨ actor.id = resource_owner_id) ∧
    (require_owner_or_superuser_defaults resource_owner_id actor = Except.ok ()
      ↔ actor.is_superuser = true ∨ actor.id = resource_owner_id) := by
  rw [require_owner_or_superuser_defaults]
  rcases actor with ⟨su, uid⟩
  refine ⟨?_, ?_⟩ <;>
  · cases su
    · by_cases h : uid = resource_owner_id
      · subst h
        simp [require_owner_or_superuser, bne_self_eq_false]
      · have hb : (resource_owner_id != uid) = true :=
          bne_iff_ne.mpr fun hh => h hh.symm
        simp [require_owner_or_superuser, hb, h]
    · simp [require_owner_or_superuser]

/-- C2 counterexample: the claim says that with no caller override a failing
`require_owner_or_superuser` yields a Forbidden-class error; in the code the
default is `status.HTTP_400_BAD_REQUEST`. At the concrete input
`resource_owner_id = 1`, actor `⟨is_superuser := false, id := 2⟩`, the
default-argument failure carries status 400, which is the BadRequest class
and not the Forbidden class (403). -/
theorem require_owner_or_superuser_default_not_forbidden :
    require_owner_or_superuser_defaults 1 ⟨false, 2⟩
        = Except.error ⟨400, "Not enough permissions"⟩ ∧
    BadRequestError.status_code = 400 ∧
    ForbiddenError.status_code = 403 ∧
    (400 : Nat) ≠ ForbiddenError.status_code := by
  refine ⟨rfl, rfl, rfl, ?_⟩
  decide

/-- C2 (amended): when `require_owner_or_superuser` fails with no caller
override, the error carries `status.HTTP_400_BAD_REQUEST` (the BadRequest
class, not Forbidden) with detail "Not enough permissions"; a caller-supplied
status/message override is exactly what the failure then carries. -/
theorem require_owner_or_superuser_failure_carries_override
    (resource_owner_id : UUID) (actor : HasSuperuser)
    (detail : String) (status_code : Nat)
    (hsu : actor.is_superuser = false) (hid : actor.id ≠ resource_owner_id) :
    require_owner_or_superuser resource_owner_id actor detail status_code
        = Except.error ⟨status_code, detail⟩ ∧
    require_owner_or_superuser_defaults resource_owner_id actor
        = Except.error ⟨HTTP_400_BAD_REQUEST, "Not enough permissions"⟩ := by
  unfold require_owner_or_superuser_defaults require_owner_or_superuser
  rcases actor with ⟨su, uid⟩
  simp only at hsu
  subst hsu
  simp only at hid
  constructor <;> simp [bne, Ne.symm hid]

/-- C2 witness: the amended theorem at the concrete failing input
`resource_owner_id = 1`, actor `⟨false, 2⟩`, override `("custom", 418)`. -/
theorem require_owner_or_superuser_failure_witness :
    require_owner_or_superuser 1 ⟨false, 2⟩ "custom" 418
        = Except.error ⟨418, "custom"⟩ ∧
    require_owner_or_superuser_defaults 1 ⟨false, 2⟩
        = Except.error ⟨HTTP_400_BAD_REQUEST, "Not enough permissions"⟩ :=
  require_owner_or_superuser_failure_carries_override 1 ⟨false, 2⟩
    "custom" 418 rfl (by decide)

/-! ## C3, C9, C10: authentication -/

/-- C3: `authenticate(email, password)` returns absent (`none`) exactly when
no user has that email or a user has it but the password fails verification
against the stored hash; both failure cases produce the very same output
`none` (so they are indistinguishable), and the function is total — it never
raises for a credential mismatch. -/
theorem authenticate_absent_iff (session : UserTable) (email password : String) :
    (UserService.authenticate session email password = none ↔
      UserService.get_user_by_email session email = none ∨
      ∃ u, UserService.get_user_by_email session email = some u ∧
        verify_password password u.hashed_password = false) ∧
    (UserService.get_user_by_email session email = none →
      UserService.authenticate session email password = none) ∧
    (∀ u, UserService.get_user_by_email session email = some u →
      verify_password password u.hashed_password = false →
      UserService.authenticate session email password = none) := by
  unfold UserService.authenticate
  cases hget : UserService.get_user_by_email session email with
  | none => simp
  | some u =>
    cases hv : verify_password password u.hashed_password with
    | false => simp [hv]
    | true => simp [hv]

/-- C3 witness: on a store with the single user `a@x.com` (password
"secret123"), both the unknown email `b@x.com` and the wrong password
"wrongpass" yield the identical output `none`. -/
theorem authenticate_absent_witness :
    UserService.authenticate
        [⟨1, "a@x.com", true, false, none, get_password_hash "secret123"⟩]
        "b@x.com" "secret123" = none ∧
    UserService.authenticate
        [⟨1, "a@x.com", true, false, none, get_password_hash "secret123"⟩]
        "a@x.com" "wrongpass" = none :=
  ⟨(authenticate_absent_iff
      [⟨1, "a@x.com", true, false, none, get_password_hash "secret123"⟩]
      "b@x.com" "secret123").2.1 (by decide),
   (authenticate_absent_iff
      [⟨1, "a@x.com", true, false, none, get_password_hash "secret123"⟩]
      "a@x.com" "wrongpass").2.2
      ⟨1, "a@x.com", true, false, none, get_password_hash "secret123"⟩
      (by decide) (by decide)⟩

/-- C9: `authenticate` returns the matching user whenever the email matches
and the password verifies against the stored hash — the statement carries no
hypothesis on `is_active`, because the code performs no active-status check
there (the active gate is the separate guard `require_active`). -/
theorem authenticate_ignores_is_active (session : UserTable)
    (email password : String) (u : User)
    (hget : UserService.get_user_by_email session email = some u)
    (hv : verify_password password u.hashed_password = true) :
    UserService.authenticate session email password = some u := by
  unfold UserService.authenticate
  rw [hget]
  simp [hv]

/-- C9 witness: an inactive user (`is_active = false`) still authenticates
with the right credentials. -/
theorem authenticate_ignores_is_active_witness :
    UserService.authenticate
        [⟨1, "a@x.com", false, false, none, get_password_hash "secret123"⟩]
        "a@x.com" "secret123"
      = some ⟨1, "a@x.com", false, false, none, get_password_hash "secret123"⟩ ∧
    (⟨1, "a@x.com", false, false, none,
        get_password_hash "secret123"⟩ : User).is_active = false :=
  ⟨authenticate_ignores_is_active
      [⟨1, "a@x.com", false, false, none, get_password_hash "secret123"⟩]
      "a@x.com" "secret123"
      ⟨1, "a@x.com", false, false, none, get_password_hash "secret123"⟩
      (by decide) (by decide),
   rfl⟩

/-- C10: the free function `authenticate` of the auth domain and the method
`UserService.authenticate` of the users domain compute the same result for
every session state, email and password. -/
theorem authenticate_implementations_agree (session : UserTable)
    (email password : String) :
    AuthService.authenticate session email password =
      UserService.authenticate session email password := rfl

/-! ## C5: item listing policy -/

/-- C5: in `read_items` with `skip = 0` and a `limit` no smaller than the
table (the global list fits the page), a superuser receives the global item
list and the global count, while a non-superuser receives exactly the items
whose `owner_id` is their own id and a count equal to the number of their own
items; the handler is total — a non-superuser gets a narrowed result set,
never a forbidden error. -/
theorem read_items_policy (session : ItemTable) (current_user : User)
    (limit : Nat) (hlim : session.length ≤ limit) :
    (current_user.is_superuser = true →
      read_items session current_user 0 limit = ⟨session, session.length⟩) ∧
    (current_user.is_superuser = false →
      read_items session current_user 0 limit =
        ⟨session.filter (fun i => i.owner_id == current_user.id),
         (session.filter (fun i => i.owner_id == current_user.id)).length⟩) := by
  constructor
  · intro hsu
    simp [read_items, ItemService.get_multi, ItemService.count, hsu,
      List.take_of_length_le hlim]
  · intro hsu
    simp [read_items, ItemService.get_by_owner, ItemService.count_by_owner, hsu,
      List.take_of_length_le (le_trans (List.length_filter_le _ _) hlim)]

/-- C5 witness: a table of 10 items of which 3 belong to user 42; the
non-superuser 42 sees exactly their 3 items with count 3, and a superuser
sees all 10 with count 10. -/
theorem read_items_policy_witness :
    read_items
        [⟨1, "t", none, 42⟩, ⟨2, "t", none, 42⟩, ⟨3, "t", none, 42⟩,
         ⟨4, "t", none, 99⟩, ⟨5, "t", none, 99⟩, ⟨6, "t", none, 99⟩,
         ⟨7, "t", none, 99⟩, ⟨8, "t", none, 99⟩, ⟨9, "t", none, 99⟩,
         ⟨10, "t", none, 99⟩]
        ⟨42, "o@x.com", true, false, none, "h"⟩ 0 100 =
      ⟨[⟨1, "t", none, 42⟩, ⟨2, "t", none, 42⟩, ⟨3, "t", none, 42⟩], 3⟩ ∧
    read_items
        [⟨1, "t", none, 42⟩, ⟨2, "t", none, 42⟩, ⟨3, "t", none, 42⟩,
         ⟨4, "t", none, 99⟩, ⟨5, "t", none, 99⟩, ⟨6, "t", none, 99⟩,
         ⟨7, "t", none, 99⟩, ⟨8, "t", none, 99⟩, ⟨9, "t", none, 99⟩,
         ⟨10, "t", none, 99⟩]
        ⟨7, "s@x.com", true, true, none, "h"⟩ 0 100 =
      ⟨[⟨1, "t", none, 42⟩, ⟨2, "t", none, 42⟩, ⟨3, "t", none, 42⟩,
        ⟨4, "t", none, 99⟩, ⟨5, "t", none, 99⟩, ⟨6, "t", none, 99⟩,
        ⟨7, "t", none, 99⟩, ⟨8, "t", none, 99⟩, ⟨9, "t", none, 99⟩,
        ⟨10, "t", none, 99⟩], 10⟩ := by
  constructor
  · rw [(read_items_policy
        [⟨1, "t", none, 42⟩, ⟨2, "t", none, 42⟩, ⟨3, "t", none, 42⟩,
         ⟨4, "t", none, 99⟩, ⟨5, "t", none, 99⟩, ⟨6, "t", none, 99⟩,
         ⟨7, "t", none, 99⟩, ⟨8, "t", none, 99⟩, ⟨9, "t", none, 99⟩,
         ⟨10, "t", none, 99⟩]
        ⟨42, "o@x.com", true, false, none, "h"⟩ 100 (by decide)).2 rfl]
    decide
  · rw [(read_items_policy
        [⟨1, "t", none, 42⟩, ⟨2, "t", none, 42⟩, ⟨3, "t", none, 42⟩,
         ⟨4, "t", none, 99⟩, ⟨5, "t", none, 99⟩, ⟨6, "t", none, 99⟩,
         ⟨7, "t", none, 99⟩, ⟨8, "t", none, 99⟩, ⟨9, "t", none, 99⟩,
         ⟨10, "t", none, 99⟩]
        ⟨7, "s@x.com", true, true, none, "h"⟩ 100 (by decide)).1 rfl]
    decide

/-! ## C4: privileged fields at creation -/

/-- C4 counterexample: the claim says a client-supplied create input cannot
set `is_superuser` and that two create inputs differing only in a privileged
value yield records with identical privileged fields. `UserCreate` declares
`is_superuser` (inherited from `UserBase`), and `create` copies it into the
record: the two concrete inputs below differ only in `is_superuser`, yet the
created records differ in exactly that privileged field. -/
theorem create_user_is_superuser_passthrough :
    (UserService.create_user ⟨"a@x.com", true, true, none, "secret123"⟩ 7).is_superuser
        = true ∧
    (UserService.create_user ⟨"a@x.com", true, false, none, "secret123"⟩ 7).is_superuser
        = false ∧
    (⟨"a@x.com", true, true, none, "secret123"⟩ : UserCreate).email
        = (⟨"a@x.com", true, false, none, "secret123"⟩ : UserCreate).email ∧
    (⟨"a@x.com", true, true, none, "secret123"⟩ : UserCreate).is_active
        = (⟨"a@x.com", true, false, none, "secret123"⟩ : UserCreate).is_active ∧
    (⟨"a@x.com", true, true, none, "secret123"⟩ : UserCreate).full_name
        = (⟨"a@x.com", true, false, none, "secret123"⟩ : UserCreate).full_name ∧
    (⟨"a@x.com", true, true, none, "secret123"⟩ : UserCreate).password
        = (⟨"a@x.com", true, false, none, "secret123"⟩ : UserCreate).password :=
  ⟨rfl, rfl, rfl, rfl, rfl, rfl⟩

/-- C4 (amended): ownership cannot be set by the create input — `ItemCreate`
declares no `owner_id`, so `owner_id` is assigned solely by
the extra-field injection of `create_with_owner`, and any two create inputs given
the same injected owner yield the same `owner_id`; `hashed_password` likewise
enters the user record only through the extra-fields merge. `is_superuser`,
however, is a declared field of `UserCreate` and is copied into the created
record, so privilege escalation for users is prevented by route-level
gating, not by the merge point. -/
theorem create_privileged_fields_amended (item_in other_in : ItemCreate)
    (fresh1 fresh2 owner : UUID) (user_create : UserCreate) (ufresh : UUID) :
    (ItemService.create_with_owner item_in fresh1 owner).owner_id = owner ∧
    (ItemService.create_with_owner item_in fresh1 owner).owner_id
        = (ItemService.create_with_owner other_in fresh2 owner).owner_id ∧
    (UserService.create_user user_create ufresh).hashed_password
        = get_password_hash user_create.password ∧
    (UserService.create_user user_create ufresh).is_superuser
        = user_create.is_superuser :=
  ⟨rfl, rfl, rfl, rfl⟩

/-! ## C6: password update -/

theorem verify_password_hash_of_ne (a p : String) (h : a ≠ p) :
    verify_password a (get_password_hash p) = false := by
  rw [verify_password]
  exact beq_eq_false_iff_ne.mpr fun hh => h (get_password_hash_inj a p hh)

/-- C6: when the update input has a password set, the resulting stored
`hashed_password` afterwards is the hash of the new plaintext — it verifies
against the new plaintext, and no longer verifies against the old plaintext
(when the two differ); the plaintext itself is never persisted: `User`
declares no field named "password", and the stored `hashed_password` differs
from the plaintext. -/
theorem update_user_password_rehash (db_user : User) (user_in : UserUpdate)
    (p : String) (hp : user_in.password = some p) :
    verify_password p
        (UserService.update_user db_user user_in).hashed_password = true ∧
    (∀ old, db_user.hashed_password = get_password_hash old → old ≠ p →
      verify_password old
          (UserService.update_user db_user user_in).hashed_password = false) ∧
    (UserService.update_user db_user user_in).hashed_password
        = get_password_hash p ∧
    (UserService.update_user db_user user_in).hashed_password ≠ p ∧
    "password" ∉ User.fieldNames := by
  cases user_in with
  | mk e a s f pw =>
    simp only at hp
    subst hp
    refine ⟨verify_password_hash_self p, ?_, rfl,
      get_password_hash_ne_plaintext p, by decide⟩
    intro old _ hne
    exact verify_password_hash_of_ne old p hne

/-- C6 witness: updating the user stored with password "oldpass123" by
`{password: "newpass123"}` yields a `hashed_password` verifying against
"newpass123", failing against "oldpass123", and distinct from the plaintext
"newpass123"; no string field of the stored record equals the plaintext. -/
theorem update_user_password_rehash_witness :
    verify_password "newpass123"
        (UserService.update_user
          ⟨1, "a@x.com", true, false, none, get_password_hash "oldpass123"⟩
          ⟨none, none, none, none, some "newpass123"⟩).hashed_password = true ∧
    verify_password "oldpass123"
        (UserService.update_user
          ⟨1, "a@x.com", true, false, none, get_password_hash "oldpass123"⟩
          ⟨none, none, none, none, some "newpass123"⟩).hashed_password = false ∧
    (UserService.update_user
          ⟨1, "a@x.com", true, false, none, get_password_hash "oldpass123"⟩
          ⟨none, none, none, none, some "newpass123"⟩).hashed_password
        ≠ "newpass123" ∧
    (UserService.update_user
          ⟨1, "a@x.com", true, false, none, get_password_hash "oldpass123"⟩
          ⟨none, none, none, none, some "newpass123"⟩).email ≠ "newpass123" :=
  ⟨(update_user_password_rehash
      ⟨1, "a@x.com", true, false, none, get_password_hash "oldpass123"⟩
      ⟨none, none, none, none, some "newpass123"⟩ "newpass123" rfl).1,
   (update_user_password_rehash
      ⟨1, "a@x.com", true, false, none, get_password_hash "oldpass123"⟩
      ⟨none, none, none, none, some "newpass123"⟩ "newpass123" rfl).2.1
      "oldpass123" rfl (by decide),
   (update_user_password_rehash
      ⟨1, "a@x.com", true, false, none, get_password_hash "oldpass123"⟩
      ⟨none, none, none, none, some "newpass123"⟩ "newpass123" rfl).2.2.2.1,
   by decide⟩

/-! ## C7: partial-update frame condition -/

theorem Model.setattr_fields (m : Model) (k : String) (v : Value) :
    (m.setattr k v).fields = m.fields := rfl

theorem Model.applyEntries_fields (entries : List (String × Value)) (m : Model) :
    (m.applyEntries entries).fields = m.fields := by
  induction entries generalizing m with
  | nil => rfl
  | cons kv rest ih =>
    rw [Model.applyEntries]
    by_cases hk : kv.1 ∈ m.fields
    · rw [if_pos hk, ih]
      rfl
    · rw [if_neg hk, ih]

theorem Model.applyEntries_val_of_not_mem (entries : List (String × Value))
    (m : Model) (f : String) (h : f ∉ entries.map Prod.fst) :
    (m.applyEntries entries).val f = m.val f := by
  induction entries generalizing m with
  | nil => rfl
  | cons kv rest ih =>
    simp only [List.map_cons, List.mem_cons, not_or] at h
    rw [Model.applyEntries, ih _ h.2]
    by_cases hk : kv.1 ∈ m.fields
    · rw [if_pos hk]
      show (if f = kv.1 then kv.2 else m.val f) = m.val f
      rw [if_neg h.1]
    · rw [if_neg hk]

theorem Model.applyEntries_val_of_mem (entries : List (String × Value))
    (m : Model) (k : String) (v : Value) (hmem : (k, v) ∈ entries)
    (hnd : (entries.map Prod.fst).Nodup) (hf : k ∈ m.fields) :
    (m.applyEntries entries).val k = v := by
  induction entries generalizing m with
  | nil => cases hmem
  | cons kv rest ih =>
    simp only [List.map_cons, List.nodup_cons] at hnd
    rw [Model.applyEntries]
    rcases List.mem_cons.mp hmem with heq | hrest
    · subst heq
      rw [if_pos hf, Model.applyEntries_val_of_not_mem rest _ k hnd.1]
      show (if k = k then v else m.val k) = v
      rw [if_pos rfl]
    · by_cases hk : kv.1 ∈ m.fields
      · rw [if_pos hk]
        exact ih _ hrest hnd.2 hf
      · rw [if_neg hk]
        exact ih _ hrest hnd.2 hf

/-- C7: `BaseService.update` has "exclude unset" partial-update semantics:
a field explicitly present in the input is applied with exactly its given
value (the entry may carry `vnull`, so an explicit null is a true overwrite)
unless `extra_fields` also names it; a field that is neither among the
explicitly-set fields of the input nor named in `extra_fields` keeps its
value (absent fields untouched — in particular, an input with no
explicitly-set field leaves every field unchanged except those named in
`extra_fields`); and `extra_fields` are applied after the input fields, so a
named extra field ends with exactly its extra value. -/
theorem update_exclude_unset_frame (db_obj : Model) (obj_in : UpdateSchema)
    (extra_fields : List (String × Value)) :
    (∀ k v, (k, v) ∈ obj_in.model_dump_exclude_unset →
        (obj_in.model_dump_exclude_unset.map Prod.fst).Nodup →
        k ∈ db_obj.fields → k ∉ extra_fields.map Prod.fst →
        (BaseService.update db_obj obj_in extra_fields).val k = v) ∧
    (∀ f, f ∉ obj_in.model_dump_exclude_unset.map Prod.fst →
        f ∉ extra_fields.map Prod.fst →
        (BaseService.update db_obj obj_in extra_fields).val f = db_obj.val f) ∧
    (obj_in.model_dump_exclude_unset = [] →
      ∀ f, f ∉ extra_fields.map Prod.fst →
        (BaseService.update db_obj obj_in extra_fields).val f = db_obj.val f) ∧
    (∀ k v, (k, v) ∈ extra_fields → (extra_fields.map Prod.fst).Nodup →
        k ∈ db_obj.fields →
        (BaseService.update db_obj obj_in extra_fields).val k = v) := by
  unfold BaseService.update Model.sqlmodel_update
  refine ⟨?_, ?_, ?_, ?_⟩
  · intro k v hmem hnd hf hnot
    rw [Model.applyEntries_val_of_not_mem _ _ _ hnot]
    exact Model.applyEntries_val_of_mem _ _ _ _ hmem hnd hf
  · intro f h1 h2
    rw [Model.applyEntries_val_of_not_mem _ _ _ h2,
        Model.applyEntries_val_of_not_mem _ _ _ h1]
  · intro hdump f h2
    rw [Model.applyEntries_val_of_not_mem _ _ _ h2, hdump]
    rfl
  · intro k v hmem hnd hf
    exact Model.applyEntries_val_of_mem _ _ _ _ hmem hnd
      (by rw [Model.applyEntries_fields]; exact hf)

/-- Concrete model instance for the C7 witness: fields `title` (= "t") and
`description` (= null). -/
def demoModel : Model :=
  ⟨["title", "description"],
   fun f => if f = "title" then Value.vstr "t" else Value.vnull⟩

/-- C7 witness: updating `demoModel` with an input whose only explicitly-set
field is `title := null` and with the extra field `description := "x"`
truly overwrites `title` with null and sets `description` to the extra
value; with an input having no explicitly-set field, `title` is left
unchanged and `description` is set to the extra value. -/
theorem update_exclude_unset_frame_witness :
    (BaseService.update demoModel ⟨[("title", Value.vnull)]⟩
        [("description", Value.vstr "x")]).val "title" = Value.vnull ∧
    (BaseService.update demoModel ⟨[("title", Value.vnull)]⟩
        [("description", Value.vstr "x")]).val "description" = Value.vstr "x" ∧
    (BaseService.update demoModel ⟨[]⟩
        [("description", Value.vstr "x")]).val "title" = demoModel.val "title" ∧
    (BaseService.update demoModel ⟨[]⟩
        [("description", Value.vstr "x")]).val "description" = Value.vstr "x" :=
  ⟨(update_exclude_unset_frame demoModel ⟨[("title", Value.vnull)]⟩
      [("description", Value.vstr "x")]).1
      "title" Value.vnull (by decide) (by decide) (by decide) (by decide),
   (update_exclude_unset_frame demoModel ⟨[("title", Value.vnull)]⟩
      [("description", Value.vstr "x")]).2.2.2
      "description" (Value.vstr "x") (by decide) (by decide) (by decide),
   (update_exclude_unset_frame demoModel ⟨[]⟩ [("description", Value.vstr "x")]).2.1
      "title" (by decide) (by decide),
   (update_exclude_unset_frame demoModel ⟨[]⟩ [("description", Value.vstr "x")]).2.2.2
      "description" (Value.vstr "x") (by decide) (by decide) (by decide)⟩

/-! ## C8: delete_by_id -/

theorem find?_eraseP_id_none {α : Type} (table : List α) (idOf : α → UUID)
    (id : UUID) (hkey : (table.map idOf).Nodup) :
    (table.eraseP (fun x => idOf x == id)).find? (fun x => idOf x == id)
      = none := by
  induction table with
  | nil => rfl
  | cons a t ih =>
    simp only [List.map_cons, List.nodup_cons] at hkey
    by_cases ha : idOf a = id
    · rw [List.eraseP_cons_of_pos (by simp [ha])]
      rw [List.find?_eq_none]
      intro x hx h
      have hxid : idOf x = id := by simpa using h
      have hmem : idOf x ∈ t.map idOf := List.mem_map_of_mem idOf hx
      rw [hxid, ← ha] at hmem
      exact hkey.1 hmem
    · rw [List.eraseP_cons_of_neg (by simp [ha])]
      rw [List.find?_cons_of_neg _ (by simp [ha])]
      exact ih hkey.2

theorem delete_by_id_fst {α : Type} (table : List α) (idOf : α → UUID)
    (id : UUID) :
    (BaseService.delete_by_id table idOf id).1
      = (table.find? (fun x => idOf x == id)).isSome := by
  unfold BaseService.delete_by_id BaseService.get
  cases table.find? (fun x => idOf x == id) <;> rfl

theorem delete_by_id_snd {α : Type} (table : List α) (idOf : α → UUID)
    (id : UUID) :
    (BaseService.delete_by_id table idOf id).2
      = table.eraseP (fun x => idOf x == id) := by
  unfold BaseService.delete_by_id BaseService.get BaseService.delete
  cases hfind : table.find? (fun x => idOf x == id) with
  | some a => rfl
  | none =>
    have hno := List.find?_eq_none.mp hfind
    exact (List.eraseP_of_forall_not hno).symm

/-- C8: `delete_by_id(id)` returns true exactly when a row with that primary
key exists (and the returned table no longer holds it), false when absent —
it is a total function, never raising for not-found — and after a call that
returned true, an immediately following `delete_by_id` on the same id
returns false. `hkey` is the primary-key invariant: the stored ids are
pairwise distinct. -/
theorem delete_by_id_spec {α : Type} (table : List α) (idOf : α → UUID)
    (id : UUID) (hkey : (table.map idOf).Nodup) :
    ((BaseService.delete_by_id table idOf id).1 = true ↔
        ∃ x ∈ table, idOf x = id) ∧
    ((BaseService.delete_by_id table idOf id).1 = false ↔
        ¬ ∃ x ∈ table, idOf x = id) ∧
    ((BaseService.delete_by_id table idOf id).1 = true →
      (BaseService.delete_by_id
          (BaseService.delete_by_id table idOf id).2 idOf id).1 = false) := by
  have h1 : (BaseService.delete_by_id table idOf id).1 = true ↔
      ∃ x ∈ table, idOf x = id := by
    rw [delete_by_id_fst]
    simp only [List.find?_isSome, beq_iff_eq]
  refine ⟨h1, ?_, ?_⟩
  · rw [Bool.eq_false_iff]
    exact not_congr h1
  · intro _
    rw [delete_by_id_fst, delete_by_id_snd,
        find?_eraseP_id_none table idOf id hkey]
    rfl

/-- C8 witness: on a one-item table, deleting id 5 returns true and the
immediately repeated call returns false; deleting the absent id 6 returns
false. -/
theorem delete_by_id_spec_witness :
    (BaseService.delete_by_id [(⟨5, "t", none, 42⟩ : Item)] Item.id 5).1
        = true ∧
    (BaseService.delete_by_id
        (BaseService.delete_by_id [(⟨5, "t", none, 42⟩ : Item)] Item.id 5).2
        Item.id 5).1 = false ∧
    (BaseService.delete_by_id [(⟨5, "t", none, 42⟩ : Item)] Item.id 6).1
        = false :=
  ⟨(delete_by_id_spec [⟨5, "t", none, 42⟩] Item.id 5 (by decide)).1.mpr
      ⟨⟨5, "t", none, 42⟩, by decide, rfl⟩,
   (delete_by_id_spec [⟨5, "t", none, 42⟩] Item.id 5 (by decide)).2.2
      ((delete_by_id_spec [⟨5, "t", none, 42⟩] Item.id 5 (by decide)).1.mpr
        ⟨⟨5, "t", none, 42⟩, by decide, rfl⟩),
   (delete_by_id_spec [⟨5, "t", none, 42⟩] Item.id 6 (by decide)).2.1.mpr
      (by decide)⟩

/-- C1 witness: the iff at concrete inputs — the owner (id 7, not superuser)
passes the check on their own resource, and a superuser passes it on a
foreign resource. -/
theorem require_owner_or_superuser_ok_iff_witness :
    require_owner_or_superuser 7 ⟨false, 7⟩ "Not enough permissions" 400
        = Except.ok () ∧
    require_owner_or_superuser_defaults 3 ⟨true, 9⟩ = Except.ok () :=
  ⟨(require_owner_or_superuser_ok_iff 7 ⟨false, 7⟩
      "Not enough permissions" 400).1.mpr (Or.inr rfl),
   (require_owner_or_superuser_ok_iff 3 ⟨true, 9⟩ "x" 0).2.mpr (Or.inl rfl)⟩
